import Mathlib

/-!
Shallow embedding of `src/cookie-consent.js` (chatlevel-docs), the consent
decision engine of a geolocation-based cookie-consent script.

Modelling conventions:
* JavaScript strings are `String`; nullable/absent values are `Option`.
* JS truthiness of a nullable string (`null`, `undefined` and `""` are
  falsy) is `truthyStr`.
* Machine effects (localStorage, document.cookie writes, the PostHog
  analytics bootstrap, the geolocation network request, the banner) are
  explicit state passing over a `World` record; the outcome of a network
  request, when one is issued, is an input (`FetchOutcome`).
* Code paths guarded by `try/catch` take an `Except Unit` input: `.error ()`
  stands for the guarded primitive throwing; the `.error` branch of each
  definition is the catch branch of the source.
* Case mapping is ASCII (`Char.toLower`/`Char.toUpper`), adequate for the
  inputs of the script (ISO country codes, region names).
-/

/-- Truthiness of a nullable JS string: `null`/`undefined` (here `none`) and
`""` are falsy, every other string is truthy. -/
def truthyStr : Option String → Bool
  | none => false
  | some s => s != ""

/-- JS `a || b || null` on nullable strings, as in
`data.country_code || data.country || null` (src line 162). -/
def jsOr (a b : Option String) : Option String :=
  if truthyStr a then a else if truthyStr b then b else none

/-- JS `a || null` on a nullable string, as in `data.region || null`. -/
def jsOrNull (a : Option String) : Option String :=
  if truthyStr a then a else none

/-- ASCII embedding of `String.prototype.toLowerCase`. -/
def jsToLower (s : String) : String := ⟨s.data.map Char.toLower⟩

/-- ASCII embedding of `String.prototype.toUpperCase`. -/
def jsToUpper (s : String) : String := ⟨s.data.map Char.toUpper⟩

/-- Contiguous-substring occurrence test on character lists:
`listIncludes sub s = true` iff `sub` occurs in `s`. -/
def listIncludes (sub : List Char) : List Char → Bool
  | [] => sub.isPrefixOf ([] : List Char)
  | c :: cs => sub.isPrefixOf (c :: cs) || listIncludes sub cs

/-- JS `s.includes(sub)` (src line 199). -/
def jsIncludes (s sub : String) : Bool := listIncludes sub.data s.data

/-- Fuelled embedding of JS `String.prototype.split` with a non-empty string
separator: splits at each non-overlapping, leftmost-first occurrence of
`sep`.  The fuel is an upper bound on the recursion depth; `jsSplit` below
supplies enough fuel.  (An empty separator never matches here; the source
only ever splits on non-empty separators.) -/
def jsSplitFuel (sep : List Char) : Nat → List Char → List (List Char)
  | 0, _ => [[]]
  | _ + 1, [] => [[]]
  | fuel + 1, c :: cs =>
    if sep ≠ [] ∧ sep.isPrefixOf (c :: cs) then
      [] :: jsSplitFuel sep fuel ((c :: cs).drop sep.length)
    else
      let rest := jsSplitFuel sep fuel cs
      (c :: rest.headD []) :: rest.tail

/-- JS `s.split(sep)` for a non-empty separator. -/
def jsSplit (sep s : List Char) : List (List Char) :=
  jsSplitFuel sep (s.length + 1) s

/-- Number of non-overlapping, leftmost-first occurrences of `sep` in `s`
(same fuelled recursion scheme as `jsSplitFuel`). -/
def countOccsFuel (sep : List Char) : Nat → List Char → Nat
  | 0, _ => 0
  | _ + 1, [] => 0
  | fuel + 1, c :: cs =>
    if sep ≠ [] ∧ sep.isPrefixOf (c :: cs) then
      countOccsFuel sep fuel ((c :: cs).drop sep.length) + 1
    else
      countOccsFuel sep fuel cs

/-- Number of non-overlapping occurrences of `sep` in `s`. -/
def countOccs (sep s : List Char) : Nat :=
  countOccsFuel sep (s.length + 1) s

/-- src line 8: storage key for the consent decision. -/
def CONSENT_KEY : String := "cookie-consent"

/-- src line 9. -/
def CONSENT_VALUE_GRANTED : String := "granted"

/-- src line 10. -/
def CONSENT_VALUE_DECLINED : String := "declined"

/-- src line 11: parent-domain scope of the shared cookie. -/
def COOKIE_DOMAIN : String := ".chatlevel.io"

/-- src lines 15-24: country codes requiring explicit consent
(EU member states, EEA, UK, Brazil, Switzerland, Canada). -/
def CONSENT_REQUIRED_COUNTRIES : List String :=
  ["AT", "BE", "BG", "HR", "CY", "CZ", "DK", "EE", "FI", "FR",
   "DE", "GR", "HU", "IE", "IT", "LV", "LT", "LU", "MT", "NL",
   "PL", "PT", "RO", "SK", "SI", "ES", "SE",
   "IS", "LI", "NO",
   "GB", "UK", "BR", "CH", "CA"]

/-- src line 27: US-region fragments requiring explicit consent. -/
def CONSENT_REQUIRED_REGIONS : List String := ["California", "CA"]

/-- A record of one `document.cookie` write performed by `setCookie`
(src lines 75-87); the `expires` date is derived from the clock and is
represented by the `days` horizon passed in. -/
structure CookieWrite where
  name : String
  value : String
  days : Nat
  domain : String
  path : String
  sameSite : String
deriving DecidableEq

/-- The normalized geolocation record built at src lines 161-165. -/
structure GeoData where
  country : Option String
  region : Option String
  city : Option String
deriving DecidableEq

/-- The raw JSON body returned by the geolocation provider: optional
`country_code`, `country`, `region`, `city` fields. -/
structure RawGeo where
  country_code : Option String
  country : Option String
  region : Option String
  city : Option String
deriving DecidableEq

/-- Outcome of one outbound geolocation request, when one is issued.
`failure` covers every path on which `getUserGeolocation` returns `null`
after fetching: timeout/abort, network error, non-2xx status
(src lines 155-158) and a malformed body (`response.json()` throwing into
the catch at src lines 168-171).  `success data` is a parsed JSON body. -/
inductive FetchOutcome where
  | failure : FetchOutcome
  | success : RawGeo → FetchOutcome
deriving DecidableEq

/-- Whether a fetch outcome is a failure. -/
def FetchOutcome.isFailure : FetchOutcome → Bool
  | .failure => true
  | .success _ => false

/-- Result of one call to `getUserGeolocation`: the value returned to the
caller, the cache afterwards, and whether a network request was issued. -/
structure GeoCall where
  result : Option GeoData
  newCache : Option GeoData
  requestMade : Bool
deriving DecidableEq

/-- src lines 161-165: normalization of the JSON body of the provider into the
cached record: `country: data.country_code || data.country || null`,
`region: data.region || null`, `city: data.city || null`. -/
def normalizeGeo (data : RawGeo) : GeoData :=
  { country := jsOr data.country_code data.country
  , region := jsOrNull data.region
  , city := jsOrNull data.city }

/-- src lines 142-172, one call of `getUserGeolocation` as a function of the
module-level cache `cachedGeoData` and of the network outcome: a truthy
cache is returned without a request (line 143); otherwise a request is made,
a failure returns `null` leaving the cache unset, and a success stores the
normalized record in the cache and returns it. -/
def getUserGeolocation (cachedGeoData : Option GeoData) (outcome : FetchOutcome) :
    GeoCall :=
  match cachedGeoData with
  | some g => { result := some g, newCache := some g, requestMade := false }
  | none =>
    match outcome with
    | .failure => { result := none, newCache := none, requestMade := true }
    | .success data =>
      let g := normalizeGeo data
      { result := some g, newCache := some g, requestMade := true }

/-- A sequence of calls to `getUserGeolocation` in one page load, fed by the
list of outcomes the network would deliver to each call that actually issues
a request; returns the final cache and the total number of requests issued. -/
def runGeoCalls (cache : Option GeoData) : List FetchOutcome → Option GeoData × Nat
  | [] => (cache, 0)
  | o :: os =>
    let call := getUserGeolocation cache o
    let rest := runGeoCalls call.newCache os
    (rest.1, (if call.requestMade then 1 else 0) + rest.2)

/-- src lines 177-214, the policy evaluation of `requiresConsent` given the
result of the geolocation lookup: `null` record or falsy country fails closed to
`true`; a country in `CONSENT_REQUIRED_COUNTRIES` (after uppercasing) gives
`true`; for country `US` with a truthy region, a region whose lowercasing
contains the lowercasing of an entry of `CONSENT_REQUIRED_REGIONS` gives
`true`; otherwise `false`. -/
def requiresConsentCore (geoData : Option GeoData) : Bool :=
  match geoData with
  | none => true
  | some g =>
    match g.country with
    | none => true
    | some c =>
      if c = "" then true
      else
        let country := jsToUpper c
        if CONSENT_REQUIRED_COUNTRIES.contains country then true
        else
          match g.region with
          | none => false
          | some r =>
            if country = "US" ∧ r ≠ "" then
              if CONSENT_REQUIRED_REGIONS.any fun q =>
                  jsIncludes (jsToLower r) (jsToLower q) then true
              else false
            else false

/-- src lines 177-214 with the surrounding `try/catch`: any error thrown
during evaluation (modelled by `.error ()`) is caught and yields `true`
(src lines 209-213). -/
def requiresConsent (geoOutcome : Except Unit (Option GeoData)) : Bool :=
  match geoOutcome with
  | .error _ => true
  | .ok geoData => requiresConsentCore geoData

/-- src lines 34-46, `getCookie`: reads a cookie value out of
`document.cookie` (an `.error ()` input stands for the cookie read
throwing, caught at lines 42-45).  `"; " + document.cookie` is split on
`"; " + name + "="`; the value is returned only when that split yields
exactly two parts, else `null`. -/
def getCookie (name : String) (documentCookie : Except Unit String) :
    Option String :=
  match documentCookie with
  | .error _ => none
  | .ok dc =>
    let value := "; " ++ dc
    let parts := jsSplit ("; " ++ name ++ "=").data value.data
    if parts.length = 2 then
      some ⟨(jsSplit [';'] (parts.getLastD [])).headD []⟩
    else none

/-- src lines 51-70, `getConsentStatus`: localStorage first, the cookie as
fallback, `null` when neither holds a truthy value; a throwing
`localStorage.getItem` (`.error ()`) is caught at lines 66-69 and yields
`null`. -/
def getConsentStatus (localStorageConsent : Except Unit (Option String))
    (documentCookie : Except Unit String) : Option String :=
  match localStorageConsent with
  | .error _ => none
  | .ok lsv =>
    if truthyStr lsv then lsv
    else
      let cookieValue := getCookie CONSENT_KEY documentCookie
      if truthyStr cookieValue then cookieValue
      else none

/-- The machine state the script manipulates: the two consent-store
backends (the localStorage value under `CONSENT_KEY`; `document.cookie` as
readable, plus the log of cookie writes performed), the PostHog state
(`posthogExists`/`posthogLoaded` for `window.posthog && window.posthog.__loaded`,
`posthogSV` for the `e.__SV` re-entry guard of the loader, `scriptInjections`
counting loader-script insertions, `posthogInitCalls` counting calls of
`window.posthog.init`), the module-level geolocation cache, the number of
geolocation requests issued, and whether the consent banner was shown. -/
structure World where
  localStorage : Option String
  documentCookie : String
  cookieWrites : List CookieWrite
  posthogExists : Bool
  posthogSV : Bool
  posthogLoaded : Bool
  scriptInjections : Nat
  posthogInitCalls : Nat
  cachedGeoData : Option GeoData
  geoRequests : Nat
  bannerShown : Bool
deriving DecidableEq

/-- src lines 114-136, the `initializePostHog` analytics bootstrap: returns
at once when `window.posthog && window.posthog.__loaded` (lines 116-119);
otherwise runs the loader snippet, whose `e.__SV ||` guard (line 123)
installs the stub and injects the loader script only when `__SV` is unset,
and then calls `window.posthog.init(...)` (line 125).  (`__loaded` is set
by the externally loaded script, not by this function, so two synchronous
calls both pass the outer guard; the `__SV` guard still keeps the script
injection to one.) -/
def initPostHog (w : World) : World :=
  if w.posthogExists && w.posthogLoaded then w
  else
    let w1 :=
      if w.posthogSV then w
      else { w with posthogExists := true, posthogSV := true
                  , scriptInjections := w.scriptInjections + 1 }
    { w1 with posthogInitCalls := w1.posthogInitCalls + 1 }

/-- src lines 75-87, `setCookie`: one write to `document.cookie` with the
given expiry horizon in days, `domain=.chatlevel.io`, `path=/`,
`SameSite=Lax`; recorded in the write log. -/
def setCookie (w : World) (name value : String) (days : Nat) : World :=
  { w with cookieWrites :=
      w.cookieWrites ++
        [{ name := name, value := value, days := days
         , domain := COOKIE_DOMAIN, path := "/", sameSite := "Lax" }] }

/-- src lines 92-109, `setConsentStatus`: stores the value in localStorage,
writes the shared cookie with a 365-day expiry, and when the value is
`"granted"` runs the PostHog bootstrap. -/
def setConsentStatus (w : World) (value : String) : World :=
  let w1 := { w with localStorage := some value }
  let w2 := setCookie w1 CONSENT_KEY value 365
  if value = CONSENT_VALUE_GRANTED then initPostHog w2 else w2

/-- src lines 593-618, `init`: a truthy stored decision is honored (PostHog
bootstrap when it is `"granted"`, nothing otherwise, and in either case no
geolocation call, no banner, no write); otherwise the geolocation lookup
runs, `requiresConsent` is evaluated on its result, and either consent is
auto-granted (`setConsentStatus("granted")`) or the banner is shown. -/
def init (w : World) (o : FetchOutcome) : World :=
  let currentConsent := getConsentStatus (.ok w.localStorage) (.ok w.documentCookie)
  if truthyStr currentConsent then
    if currentConsent = some CONSENT_VALUE_GRANTED then initPostHog w else w
  else
    let call := getUserGeolocation w.cachedGeoData o
    let w1 : World :=
      { w with cachedGeoData := call.newCache
             , geoRequests := w.geoRequests + (if call.requestMade then 1 else 0) }
    if requiresConsent (.ok call.result) = false then
      setConsentStatus w1 CONSENT_VALUE_GRANTED
    else
      { w1 with bannerShown := true }

/-- A fresh page-load state: nothing stored, no PostHog, no requests made. -/
def world0 : World :=
  { localStorage := none
  , documentCookie := ""
  , cookieWrites := []
  , posthogExists := false
  , posthogSV := false
  , posthogLoaded := false
  , scriptInjections := 0
  , posthogInitCalls := 0
  , cachedGeoData := none
  , geoRequests := 0
  , bannerShown := false }

/-- The region check of `requiresConsent` (src lines 196-205) tests substring
containment of each lowercased entry of `CONSENT_REQUIRED_REGIONS` in the
lowercased region, so any region containing `"ca"` matches. -/
theorem region_check_eq_contains_ca (r : String) (hr : r ≠ "") :
    requiresConsent (.ok (some { country := some "US", region := some r, city := none }))
      = (jsIncludes (jsToLower r) "california" || jsIncludes (jsToLower r) "ca") := by
  have hUS : jsToUpper "US" = "US" := by decide
  have hmem : "US" ∉ CONSENT_REQUIRED_COUNTRIES := by decide
  have hCal : jsToLower "California" = "california" := by decide
  have hCA : jsToLower "CA" = "ca" := by decide
  simp [requiresConsent, requiresConsentCore, CONSENT_REQUIRED_REGIONS,
        hUS, hmem, hCal, hCA, hr]

/-- Claim C1, counterexample: for country `"US"` and region `"North Carolina"`,
`requiresConsent` returns `true`, although the region does not
case-insensitively contain `"california"` and does not equal `"CA"`
(not even case-insensitively), so the claimed biconditional fails here. -/
theorem C1_counterexample :
    requiresConsent (.ok (some { country := some "US"
                               , region := some "North Carolina", city := none })) = true
    ∧ jsIncludes (jsToLower "North Carolina") "california" = false
    ∧ "North Carolina" ≠ "CA"
    ∧ jsToLower "North Carolina" ≠ jsToLower "CA" := by
  refine ⟨by decide, by decide, by decide, by decide⟩

/-- Claim C1, amended: for a geo record with country `"US"` and a present
region string, `requiresConsent` returns `true` exactly when the lowercased
region contains `"california"` or contains `"ca"` as a substring (in
particular for `"California"` in any casing and with surrounding text, but
also for e.g. `"North Carolina"`); it returns `false` for region `"Texas"`
and `false` when no region is present. -/
theorem C1_amended_thm (r : String) :
    requiresConsent (.ok (some { country := some "US", region := some r, city := none }))
      = (jsIncludes (jsToLower r) "california" || jsIncludes (jsToLower r) "ca")
    ∧ requiresConsent (.ok (some { country := some "US"
                                 , region := some "Texas", city := none })) = false
    ∧ requiresConsent (.ok (some { country := some "US"
                                 , region := none, city := none })) = false := by
  refine ⟨?_, by decide, by decide⟩
  by_cases hr : r = ""
  · subst hr; decide
  · exact region_check_eq_contains_ca r hr

/-- Claim C3: for a geo record with a non-empty country and no region,
`requiresConsent` returns `true` when the uppercased country is in
`CONSENT_REQUIRED_COUNTRIES`, and `false` when it is neither in that list
nor `"US"`. -/
theorem C3_thm (c : String) (hc : c ≠ "") :
    (CONSENT_REQUIRED_COUNTRIES.contains (jsToUpper c) = true →
      requiresConsent (.ok (some { country := some c, region := none, city := none })) = true)
    ∧ (CONSENT_REQUIRED_COUNTRIES.contains (jsToUpper c) = false →
      jsToUpper c ≠ "US" →
      requiresConsent (.ok (some { country := some c, region := none, city := none })) = false) := by
  constructor
  · intro h
    have h2 : jsToUpper c ∈ CONSENT_REQUIRED_COUNTRIES := by simpa using h
    simp [requiresConsent, requiresConsentCore, hc, h2]
  · intro h _
    have h2 : jsToUpper c ∉ CONSENT_REQUIRED_COUNTRIES := by simpa using h
    simp [requiresConsent, requiresConsentCore, hc, h2]

/-- Witness for C3 at concrete inputs: lowercase `"de"` is regulated after
uppercasing; `"JP"` is unregulated and not `"US"`. -/
theorem C3_witness :
    requiresConsent (.ok (some { country := some "de", region := none, city := none })) = true
    ∧ requiresConsent (.ok (some { country := some "JP", region := none, city := none })) = false :=
  ⟨(C3_thm "de" (by decide)).1 (by decide),
   (C3_thm "JP" (by decide)).2 (by decide) (by decide)⟩

/-- Claim C4: `requiresConsent` fails closed — a thrown error (the catch at
src lines 209-213), an unavailable geolocation (`null` result, which is what
every failed fetch yields), or a missing/empty country all give `true`. -/
theorem C4_thm :
    requiresConsent (.error ()) = true
    ∧ requiresConsent (.ok none) = true
    ∧ (∀ (region city : Option String),
        requiresConsent (.ok (some { country := none, region := region, city := city })) = true
        ∧ requiresConsent (.ok (some { country := some "", region := region, city := city })) = true)
    ∧ (getUserGeolocation none .failure).result = none := by
  refine ⟨rfl, rfl, fun region city => ⟨rfl, by simp [requiresConsent, requiresConsentCore]⟩, rfl⟩

/-- Once the cache holds a record, later calls to `getUserGeolocation` issue
no network request at all. -/
theorem runGeoCalls_cached (g : GeoData) :
    ∀ (os : List FetchOutcome), (runGeoCalls (some g) os).2 = 0 := by
  intro os
  induction os with
  | nil => rfl
  | cons o os ih => simp [runGeoCalls, getUserGeolocation, ih]

/-- Claim C2, counterexample: two geolocation lookups whose first outcome is
a failure issue two network requests — after a failed lookup the cache stays
empty and the next call fetches again.  The same happens through `init`:
calling it twice on a fresh page state with failing fetches issues two
requests, contradicting the claimed at-most-one bound. -/
theorem C2_counterexample :
    (runGeoCalls none [.failure, .failure]).2 = 2
    ∧ (init (init world0 .failure) .failure).geoRequests = 2 := by
  refine ⟨by decide, by decide⟩

/-- Claim C2, amended: only a successful lookup is memoized.  After a call
that succeeds, every later call returns the cached record with no new
request; a failed lookup leaves the cache empty and the next call fetches
again.  Hence over any sequence of calls the number of network requests is
the number of calls up to and including the first successful one (and the
number of all calls when none succeeds). -/
theorem C2_amended_thm :
    ∀ (os : List FetchOutcome) (g : GeoData),
      (runGeoCalls (some g) os).2 = 0
      ∧ (runGeoCalls none os).2 =
          (os.takeWhile FetchOutcome.isFailure).length
          + (if (os.any fun o => !o.isFailure) then 1 else 0) := by
  intro os g
  refine ⟨runGeoCalls_cached g os, ?_⟩
  induction os with
  | nil => rfl
  | cons o os ih =>
    cases o with
    | failure =>
      simp [runGeoCalls, getUserGeolocation, FetchOutcome.isFailure,
            List.takeWhile_cons, ih]
      split <;> omega
    | success data =>
      simp [runGeoCalls, getUserGeolocation, FetchOutcome.isFailure,
            List.takeWhile_cons, runGeoCalls_cached]

/-- Claim C9: when the body sent by the provider has a falsy `country_code` and a
truthy `country`, the `country` field is used verbatim as the country
(src line 162); since the membership test compares the uppercased value
against two-letter codes, a full-name-only body for a regulated country,
such as `country = "Germany"` with no `country_code`, makes
`requiresConsent` return `false`. -/
theorem C9_thm (data : RawGeo)
    (h1 : truthyStr data.country_code = false)
    (h2 : truthyStr data.country = true) :
    (normalizeGeo data).country = data.country
    ∧ requiresConsent (.ok ((getUserGeolocation none
        (.success { country_code := none, country := some "Germany"
                  , region := none, city := none })).result)) = false := by
  constructor
  · simp [normalizeGeo, jsOr, h1, h2]
  · decide

/-- Witness for C9 at the body `{ country: "Germany" }` itself. -/
theorem C9_witness :
    (normalizeGeo { country_code := none, country := some "Germany"
                  , region := none, city := none }).country = some "Germany"
    ∧ requiresConsent (.ok ((getUserGeolocation none
        (.success { country_code := none, country := some "Germany"
                  , region := none, city := none })).result)) = false :=
  C9_thm { country_code := none, country := some "Germany"
         , region := none, city := none } (by decide) (by decide)

/-- Claim C7: `getConsentStatus` checks localStorage first and the cookie
only when localStorage holds no truthy value, so the primary backend wins
on disagreement; it yields `null` when neither backend holds a value and
when the storage read throws, never propagating an error. -/
theorem C7_thm (ls doc v : String) (hls : ls ≠ "") (hv : v ≠ "") :
    getConsentStatus (.ok (some ls)) (.ok doc) = some ls
    ∧ (getCookie CONSENT_KEY (.ok doc) = some v →
        getConsentStatus (.ok none) (.ok doc) = some v)
    ∧ (truthyStr (getCookie CONSENT_KEY (.ok doc)) = false →
        getConsentStatus (.ok none) (.ok doc) = none)
    ∧ getConsentStatus (.error ()) (.ok doc) = none
    ∧ getConsentStatus (.ok (some ls)) (.error ()) = some ls
    ∧ getConsentStatus (.ok none) (.error ()) = none := by
  refine ⟨?_, ?_, ?_, rfl, ?_, ?_⟩
  · simp [getConsentStatus, truthyStr, hls]
  · intro h
    simp [getConsentStatus, truthyStr, h, hv]
  · intro h
    simp [getConsentStatus, truthyStr] at h ⊢
    simp [h]
  · simp [getConsentStatus, truthyStr, hls]
  · simp [getConsentStatus, getCookie, truthyStr]

/-- Witness for C7: localStorage `"granted"` beats a differing cookie
`"declined"`. -/
theorem C7_witness :
    getConsentStatus (.ok (some "granted")) (.ok "cookie-consent=declined") = some "granted"
    ∧ getConsentStatus (.error ()) (.ok "cookie-consent=declined") = none := by
  have h := C7_thm "granted" "cookie-consent=declined" "declined" (by decide) (by decide)
  exact ⟨h.1, h.2.2.2.1⟩

/-- The PostHog bootstrap touches only the PostHog fields of the state:
storage, cookie log, geolocation cache, request count and banner are
untouched. -/
theorem initPostHog_frame (w : World) :
    (initPostHog w).localStorage = w.localStorage
    ∧ (initPostHog w).documentCookie = w.documentCookie
    ∧ (initPostHog w).cookieWrites = w.cookieWrites
    ∧ (initPostHog w).cachedGeoData = w.cachedGeoData
    ∧ (initPostHog w).geoRequests = w.geoRequests
    ∧ (initPostHog w).bannerShown = w.bannerShown := by
  by_cases h1 : (w.posthogExists && w.posthogLoaded) = true
  · simp [initPostHog, h1]
  · by_cases h2 : w.posthogSV = true <;> simp [initPostHog, h1, h2]

/-- A value returned by `getConsentStatus` is never the empty string: both
backends are checked for truthiness before being returned. -/
theorem getConsentStatus_some_ne (ls : Except Unit (Option String))
    (doc : Except Unit String) (v : String)
    (h : getConsentStatus ls doc = some v) : v ≠ "" := by
  cases ls with
  | error e => simp [getConsentStatus] at h
  | ok lsv =>
    simp only [getConsentStatus] at h
    split at h
    · next h1 =>
      subst h
      simpa [truthyStr] using h1
    · split at h
      · next h2 =>
        rw [h] at h2
        simpa [truthyStr] using h2
      · exact absurd h (by simp)

/-- Claim C5: whenever `getConsentStatus` yields a stored decision, `init`
either runs only the PostHog bootstrap (stored `"granted"`) or does nothing
at all: in both cases the storage backends, the cookie-write log, the
geolocation cache, the request count and the banner flag are exactly those
of the incoming state — no network call, no banner, no write. -/
theorem C5_thm (w : World) (o : FetchOutcome) (v : String)
    (h : getConsentStatus (.ok w.localStorage) (.ok w.documentCookie) = some v) :
    init w o = (if v = "granted" then initPostHog w else w)
    ∧ (initPostHog w).localStorage = w.localStorage
    ∧ (initPostHog w).documentCookie = w.documentCookie
    ∧ (initPostHog w).cookieWrites = w.cookieWrites
    ∧ (initPostHog w).cachedGeoData = w.cachedGeoData
    ∧ (initPostHog w).geoRequests = w.geoRequests
    ∧ (initPostHog w).bannerShown = w.bannerShown := by
  have hv : v ≠ "" := getConsentStatus_some_ne _ _ _ h
  have hf := initPostHog_frame w
  refine ⟨?_, hf.1, hf.2.1, hf.2.2.1, hf.2.2.2.1, hf.2.2.2.2.1, hf.2.2.2.2.2⟩
  simp [init, h, truthyStr, hv, CONSENT_VALUE_GRANTED]

/-- Witness for C5: a visitor returning with a cookie-stored `"granted"`
gets exactly the PostHog bootstrap and nothing else. -/
theorem C5_witness :
    init { world0 with documentCookie := "cookie-consent=granted" } .failure
      = initPostHog { world0 with documentCookie := "cookie-consent=granted" } := by
  have h := (C5_thm { world0 with documentCookie := "cookie-consent=granted" }
      .failure "granted" (by decide)).1
  simpa using h

/-- Claim C8: any non-empty string in localStorage under the consent key —
also one that is neither `"granted"` nor `"declined"`, such as `"maybe"` —
makes `init` treat it as an existing decision: the state is unchanged except
for the PostHog bootstrap, which runs exactly when the stored string is
`"granted"`; for any other stored string `init` is the identity. -/
theorem C8_thm (w : World) (o : FetchOutcome) (s : String)
    (h1 : w.localStorage = some s) (h2 : s ≠ "") :
    init w o = (if s = "granted" then initPostHog w else w)
    ∧ (s ≠ "granted" → init w o = w)
    ∧ (initPostHog w).localStorage = w.localStorage
    ∧ (initPostHog w).cookieWrites = w.cookieWrites
    ∧ (initPostHog w).geoRequests = w.geoRequests
    ∧ (initPostHog w).bannerShown = w.bannerShown := by
  have hgc : getConsentStatus (.ok w.localStorage) (.ok w.documentCookie) = some s := by
    simp [getConsentStatus, h1, truthyStr, h2]
  have heq : init w o = (if s = "granted" then initPostHog w else w) := by
    simp [init, hgc, truthyStr, h2, CONSENT_VALUE_GRANTED]
  have hf := initPostHog_frame w
  refine ⟨heq, ?_, hf.1, hf.2.2.1, hf.2.2.2.2.1, hf.2.2.2.2.2⟩
  intro hne
  rw [heq, if_neg hne]

/-- Witness for C8: a stored `"maybe"` makes `init` a no-op. -/
theorem C8_witness :
    init { world0 with localStorage := some "maybe" } .failure
      = { world0 with localStorage := some "maybe" } :=
  (C8_thm { world0 with localStorage := some "maybe" } .failure "maybe"
      rfl (by decide)).2.1 (by decide)

/-- Claim C6: `setConsentStatus "granted"` stores `"granted"` in
localStorage and writes the shared cookie with a 365-day expiry scoped to
`.chatlevel.io`; starting from a state with no PostHog present, two granted
calls in succession inject the PostHog loader script exactly once (the
`__SV` guard stops the second injection); and `setConsentStatus "declined"`
never touches the PostHog state (no injection, no `posthog.init` call). -/
theorem C6_thm (w w2 : World)
    (h1 : w.posthogExists = false) (h2 : w.posthogSV = false)
    (h3 : w.posthogLoaded = false) :
    (setConsentStatus (setConsentStatus w "granted") "granted").localStorage = some "granted"
    ∧ (setConsentStatus (setConsentStatus w "granted") "granted").cookieWrites
        = w.cookieWrites
          ++ [{ name := "cookie-consent", value := "granted", days := 365
              , domain := ".chatlevel.io", path := "/", sameSite := "Lax" },
              { name := "cookie-consent", value := "granted", days := 365
              , domain := ".chatlevel.io", path := "/", sameSite := "Lax" }]
    ∧ (setConsentStatus (setConsentStatus w "granted") "granted").scriptInjections
        = w.scriptInjections + 1
    ∧ (setConsentStatus w "granted").localStorage = some "granted"
    ∧ (setConsentStatus w "granted").cookieWrites
        = w.cookieWrites
          ++ [{ name := "cookie-consent", value := "granted", days := 365
              , domain := ".chatlevel.io", path := "/", sameSite := "Lax" }]
    ∧ (setConsentStatus w "granted").scriptInjections = w.scriptInjections + 1
    ∧ (setConsentStatus w2 "declined").scriptInjections = w2.scriptInjections
    ∧ (setConsentStatus w2 "declined").posthogInitCalls = w2.posthogInitCalls
    ∧ (setConsentStatus w2 "declined").localStorage = some "declined" := by
  refine ⟨?_, ?_, ?_, ?_, ?_, ?_, ?_, ?_, ?_⟩ <;>
    simp [setConsentStatus, setCookie, initPostHog, CONSENT_KEY,
          CONSENT_VALUE_GRANTED, COOKIE_DOMAIN, h1, h2, h3]

/-- Witness for C6 on a fresh page state: two granted calls inject the
loader once, a declined call leaves the PostHog state untouched. -/
theorem C6_witness :
    (setConsentStatus (setConsentStatus world0 "granted") "granted").scriptInjections = 1
    ∧ (setConsentStatus world0 "declined").posthogInitCalls = 0 := by
  have h := C6_thm world0 world0 rfl rfl rfl
  exact ⟨by simpa using h.2.2.1, by simpa using h.2.2.2.2.2.2.2.1⟩

/-- The number of parts produced by the embedded JS `split` is one more than
the number of non-overlapping occurrences of the separator. -/
theorem jsSplitFuel_length (sep : List Char) :
    ∀ (fuel : Nat) (s : List Char), s.length < fuel →
      (jsSplitFuel sep fuel s).length = countOccsFuel sep fuel s + 1 := by
  intro fuel
  induction fuel with
  | zero => intro s h; omega
  | succ n ih =>
    intro s h
    cases s with
    | nil => simp [jsSplitFuel, countOccsFuel]
    | cons c cs =>
      by_cases hp : sep ≠ [] ∧ sep <+: c :: cs
      · have hsep : 1 ≤ sep.length := by
          cases sep with
          | nil => exact absurd rfl hp.1
          | cons a l => simp
        have hd : ((c :: cs).drop sep.length).length < n := by
          simp only [List.length_drop, List.length_cons]
          simp only [List.length_cons] at h
          omega
        simp [jsSplitFuel, countOccsFuel, hp, ih _ hd]
      · have hcs : cs.length < n := by
          simp only [List.length_cons] at h
          omega
        have hr := ih cs hcs
        simp [jsSplitFuel, countOccsFuel, hp, List.length_tail, hr]

/-- Specialization of `jsSplitFuel_length` to the fuel `jsSplit` uses. -/
theorem jsSplit_length (sep s : List Char) :
    (jsSplit sep s).length = countOccs sep s + 1 :=
  jsSplitFuel_length sep (s.length + 1) s (Nat.lt_succ_self _)

/-- Claim C10: `getCookie` yields a value only when `"; " ++ name ++ "="`
occurs exactly once in `"; " ++ document.cookie` — with two or more
occurrences (e.g. a host-scoped and a domain-scoped cookie of the same
name) the split has more than two parts and `getCookie` returns `null`,
so `getConsentStatus` falls through to `null` although a cookie decision
is present; with a single occurrence the value is returned. -/
theorem C10_thm (name doc : String) :
    (2 ≤ countOccs ("; " ++ name ++ "=").data ("; " ++ doc).data →
      getCookie name (.ok doc) = none)
    ∧ (getCookie name (.ok doc) ≠ none →
      countOccs ("; " ++ name ++ "=").data ("; " ++ doc).data = 1)
    ∧ getConsentStatus (.ok none)
        (.ok "cookie-consent=granted; cookie-consent=declined") = none
    ∧ getCookie "cookie-consent" (.ok "cookie-consent=granted") = some "granted" := by
  have hlen := jsSplit_length ("; " ++ name ++ "=").data ("; " ++ doc).data
  refine ⟨?_, ?_, by decide, by decide⟩
  · intro h2
    have hne : ¬ ((jsSplit ("; " ++ name ++ "=").data ("; " ++ doc).data).length = 2) := by
      omega
    simp only [getCookie]
    rw [if_neg hne]
  · intro hne
    simp only [getCookie] at hne
    by_cases hl : (jsSplit ("; " ++ name ++ "=").data ("; " ++ doc).data).length = 2
    · omega
    · rw [if_neg hl] at hne
      exact absurd rfl hne

/-- Witness for C10: a duplicated `cookie-consent` cookie reads as `null`,
a single one occurs once and reads back. -/
theorem C10_witness :
    getCookie "cookie-consent"
      (.ok "cookie-consent=granted; cookie-consent=declined") = none
    ∧ countOccs ("; " ++ "cookie-consent" ++ "=").data
        ("; " ++ "cookie-consent=granted").data = 1 :=
  ⟨(C10_thm "cookie-consent" "cookie-consent=granted; cookie-consent=declined").1 (by decide),
   (C10_thm "cookie-consent" "cookie-consent=granted").2.1 (by decide)⟩
